import Mathlib

/-!
Verification of the Personal Productivity Dashboard backend.

This file is a shallow embedding of the repository (a FastAPI + SQLAlchemy
CRUD service over five resources: users, tasks, habits, notes, daily goals)
together with proofs of the behavioural claims made by its specification.

Modelling conventions:
* machine state (the database) is a `List` of entity records, passed and
  returned explicitly; SQLAlchemy `query/filter/first` becomes `List.find?`,
  `ORDER BY created_at DESC` becomes `List.insertionSort` on the reversed
  `le` on `created_at`, and SQL `LIMIT`/`OFFSET` become `List.take`/`List.drop`;
* timestamps are `Nat` seconds since the epoch (JWT serialises datetimes to
  integer Unix timestamps; `timedelta(days=1)` is 86400 seconds);
* a pydantic field that may be absent from a request body is an `Option`;
  for a nullable column the stored value is itself an `Option`, so an
  updatable nullable column appears as `Option (Option _)` in an update
  schema (outer = supplied or not, inner = value or SQL NULL);
* fallible operations return sum types (`OpResult`, `Except`) in place of
  raised `HTTPException`s; the variant records the HTTP class (404/403/…).
-/

namespace PPD

/-- Does `pat` occur at the head of `hay`? -/
def matchHead : List Char → List Char → Bool
  | [], _ => true
  | _ :: _, [] => false
  | p :: ps, h :: hs => p == h && matchHead ps hs

/-- Does `pat` occur anywhere inside `hay`? -/
def matchSub (pat hay : List Char) : Bool :=
  match hay with
  | [] => pat.isEmpty
  | _ :: hs => matchHead pat hay || matchSub pat hs

/-- Case-insensitive substring match: models the SQL
pattern `column ILIKE the search term wrapped in percent signs`
produced by the controllers for the free-text search filters. -/
def ilikeContains (hay pat : String) : Bool :=
  matchSub pat.toLower.toList hay.toLower.toList

/-- ILIKE against a nullable column: SQL NULL never matches a pattern
(the comparison yields NULL, which excludes the row). -/
def ilikeOpt (hay : Option String) (pat : String) : Bool :=
  match hay with
  | none => false
  | some h => ilikeContains h pat

/-- The authenticated identity (src `current_user`, a `UserModel` row):
its primary key and its role string.  The role column of `users` is a
`VARCHAR(50)`; the canonical values are the strings CUSTOMER and ADMIN
(enum `UserRole` in src/models/user.py). -/
structure Actor where
  id : Nat
  role : String
deriving DecidableEq, Repr

/-- src/models/task.py `TaskModel`.  `created_at` is declared there with
default now; `due_date` is nullable, `title` and `description` are not. -/
structure Task where
  id : Nat
  title : String
  description : String
  due_date : Option Nat
  is_completed : Bool
  created_at : Nat
  user_id : Nat
deriving DecidableEq, Repr

/-- src/models/habit.py `HabitModel`: `description` and `completed_at` are
nullable.  `created_at` comes from the shared declarative base
(models/base.py, absent from src); modelled from the spec: entities carry a
creation timestamp and lists are ordered newest-first by it. -/
structure Habit where
  id : Nat
  user_id : Nat
  title : String
  description : Option String
  completed_at : Option Nat
  is_completed : Bool
  created_at : Nat
deriving DecidableEq, Repr

/-- src/models/note.py `NoteModel`: `content` is nullable.  `created_at` as
for `Habit`: modelled from the spec (shared base, absent from src). -/
structure Note where
  id : Nat
  user_id : Nat
  title : String
  content : Option String
  created_at : Nat
deriving DecidableEq, Repr

/-- src/models/daily_goal.py `DailyGoalModel`: `description` is a nullable
Text column, `goal_date` is a non-null Date.  `created_at` as for `Habit`:
modelled from the spec (shared base, absent from src). -/
structure DailyGoal where
  id : Nat
  title : String
  description : Option String
  goal_date : Nat
  is_completed : Bool
  user_id : Nat
  created_at : Nat
deriving DecidableEq, Repr

/-- Outcome of a single-item controller operation: the raised
`HTTPException(404)`, the raised `HTTPException(403)`, or the returned
payload. -/
inductive OpResult (α : Type) where
  | notFound
  | forbidden
  | ok (val : α)
deriving DecidableEq, Repr

/-- The ADMIN role string (`UserRole.ADMIN.value`). -/
def ADMIN : String := "ADMIN"

/-! ## Task controller (src/controllers/tasks.py) -/

/-- Request schema `TaskCreate` (src/serializers/task.py): title and
description required, due_date optional. -/
structure TaskCreate where
  title : String
  description : String
  due_date : Option Nat
deriving DecidableEq, Repr

/-- A raw create request body as sent on the wire: pydantic silently drops
the keys that are not declared on `TaskCreate`, in particular any
caller-supplied `is_completed` or `user_id`. -/
structure RawTaskCreate where
  title : String
  description : String
  due_date : Option Nat
  is_completed : Option Bool
  user_id : Option Nat
deriving DecidableEq, Repr

/-- Pydantic validation of a raw body against `TaskCreate`: keeps exactly
the declared fields. -/
def parseTaskCreate (r : RawTaskCreate) : TaskCreate :=
  { title := r.title, description := r.description, due_date := r.due_date }

/-- `create_task` (tasks.py lines 15-43): builds the row with
`user_id=current_user.id` and `is_completed=False`, commits it.
`newId` is the autoincrement key, `created` the row creation time. -/
def create_task (db : List Task) (current_user : Actor) (task : TaskCreate)
    (newId created : Nat) : Task × List Task :=
  let new_task : Task :=
    { id := newId, title := task.title, description := task.description,
      due_date := task.due_date, user_id := current_user.id,
      is_completed := false, created_at := created }
  (new_task, db ++ [new_task])

/-- Newest-first ordering on tasks (`ORDER BY created_at DESC`). -/
def taskNewer (a b : Task) : Prop := b.created_at ≤ a.created_at

instance : DecidableRel taskNewer := fun _ _ => Nat.decLe _ _

instance : IsTotal Task taskNewer := ⟨fun a b => le_total b.created_at a.created_at⟩

instance : IsTrans Task taskNewer := ⟨fun _ _ _ h1 h2 => le_trans h2 h1⟩

/-- `get_tasks` (tasks.py lines 45-77): list the current user's tasks with
the optional `completed` and `search` filters, newest first.  There is no
pagination on this endpoint. -/
def get_tasks (db : List Task) (current_user : Actor)
    (completed : Option Bool) (search : Option String) : List Task :=
  List.insertionSort taskNewer (db.filter fun t =>
    t.user_id == current_user.id
      && (match completed with
          | none => true
          | some b => t.is_completed == b)
      && (match search with
          | none => true
          | some s => ilikeContains t.title s || ilikeContains t.description s))

/-- `get_single_task` (tasks.py lines 79-106): 404 when the id does not
resolve, then 403 when the caller is neither the owner nor ADMIN. -/
def get_single_task (db : List Task) (current_user : Actor) (task_id : Nat) :
    OpResult Task :=
  match db.find? fun t => t.id == task_id with
  | none => .notFound
  | some task =>
    if task.user_id ≠ current_user.id ∧ current_user.role ≠ ADMIN then
      .forbidden
    else
      .ok task

/-- Request schema `TaskUpdate` (src/serializers/task.py): every field
optional; `due_date` may be set to SQL NULL explicitly. -/
structure TaskUpdate where
  title : Option String
  description : Option String
  due_date : Option (Option Nat)
  is_completed : Option Bool
deriving DecidableEq, Repr

/-- The setattr loop of `update_task` over `dict(exclude_unset=True)`:
each supplied field overwrites the row field, unsupplied fields are not
touched. -/
def applyTaskUpdate (t : Task) (u : TaskUpdate) : Task :=
  { t with
    title := u.title.getD t.title,
    description := u.description.getD t.description,
    due_date := u.due_date.getD t.due_date,
    is_completed := u.is_completed.getD t.is_completed }

/-- `update_task` (tasks.py lines 108-149): 404, then ownership check
(same predicate as `get_single_task`), then partial update and commit. -/
def update_task (db : List Task) (current_user : Actor) (task_id : Nat)
    (task_update : TaskUpdate) : OpResult (Task × List Task) :=
  match db.find? fun t => t.id == task_id with
  | none => .notFound
  | some db_task =>
    if db_task.user_id ≠ current_user.id ∧ current_user.role ≠ ADMIN then
      .forbidden
    else
      let t' := applyTaskUpdate db_task task_update
      .ok (t', db.map fun x => if x.id == task_id then t' else x)

/-- `delete_task` (tasks.py lines 152-190): 404, then ownership check,
then hard delete. -/
def delete_task (db : List Task) (current_user : Actor) (task_id : Nat) :
    OpResult (List Task) :=
  match db.find? fun t => t.id == task_id with
  | none => .notFound
  | some db_task =>
    if db_task.user_id ≠ current_user.id ∧ current_user.role ≠ ADMIN then
      .forbidden
    else
      .ok (db.filter fun x => !(x.id == task_id))

/-! ## Habit controller (src/controllers/habits.py) -/

/-- Request schema `HabitCreate` (src/serializers/habit.py). -/
structure HabitCreate where
  title : String
  description : Option String
deriving DecidableEq, Repr

/-- A raw habit create body: pydantic drops any caller-supplied
`is_completed`, `completed_at` or `user_id` key, none of which is declared
on `HabitCreate`. -/
structure RawHabitCreate where
  title : String
  description : Option String
  is_completed : Option Bool
  completed_at : Option Nat
  user_id : Option Nat
deriving DecidableEq, Repr

/-- Pydantic validation of a raw body against `HabitCreate`. -/
def parseHabitCreate (r : RawHabitCreate) : HabitCreate :=
  { title := r.title, description := r.description }

/-- `create_habit` (habits.py lines 14-43): the row is created with
`user_id=current_user.id`, `is_completed=False`, `completed_at=None`. -/
def create_habit (db : List Habit) (current_user : Actor) (habit : HabitCreate)
    (newId created : Nat) : Habit × List Habit :=
  let new_habit : Habit :=
    { id := newId, user_id := current_user.id, title := habit.title,
      description := habit.description, is_completed := false,
      completed_at := none, created_at := created }
  (new_habit, db ++ [new_habit])

/-- Newest-first ordering on habits. -/
def habitNewer (a b : Habit) : Prop := b.created_at ≤ a.created_at

instance : DecidableRel habitNewer := fun _ _ => Nat.decLe _ _

instance : IsTotal Habit habitNewer := ⟨fun a b => le_total b.created_at a.created_at⟩

instance : IsTrans Habit habitNewer := ⟨fun _ _ _ h1 h2 => le_trans h2 h1⟩

/-- `get_my_habits` (habits.py lines 45-70): the only filter on this list
endpoint is `completed`; there is no search and no pagination. -/
def get_my_habits (db : List Habit) (current_user : Actor)
    (completed : Option Bool) : List Habit :=
  List.insertionSort habitNewer (db.filter fun h =>
    h.user_id == current_user.id
      && (match completed with
          | none => true
          | some b => h.is_completed == b))

/-- `get_habit` (habits.py lines 106-133): 404 before the permission
check; the permission condition is written admin-first in this file. -/
def get_habit (db : List Habit) (current_user : Actor) (habit_id : Nat) :
    OpResult Habit :=
  match db.find? fun h => h.id == habit_id with
  | none => .notFound
  | some habit =>
    if current_user.role ≠ ADMIN ∧ habit.user_id ≠ current_user.id then
      .forbidden
    else
      .ok habit

/-- Request schema `HabitUpdate` (src/serializers/habit.py): optional
title, description, is_completed.  There is no `completed_at` field on
this schema. -/
structure HabitUpdate where
  title : Option String
  description : Option (Option String)
  is_completed : Option Bool
deriving DecidableEq, Repr

/-- A raw habit update body: a caller-supplied `completed_at` key is not
declared on `HabitUpdate` and is dropped by pydantic validation. -/
structure RawHabitUpdate where
  title : Option String
  description : Option (Option String)
  is_completed : Option Bool
  completed_at : Option (Option Nat)
deriving DecidableEq, Repr

/-- Pydantic validation of a raw body against `HabitUpdate`. -/
def parseHabitUpdate (r : RawHabitUpdate) : HabitUpdate :=
  { title := r.title, description := r.description,
    is_completed := r.is_completed }

/-- The completion handling plus setattr loop of `update_habit`
(habits.py lines 162-172): when the request supplies `is_completed=true`
the controller overwrites `completed_at` with the current time, when it
supplies `is_completed=false` it overwrites it with NULL; otherwise
`completed_at` is left untouched. -/
def applyHabitUpdate (h : Habit) (u : HabitUpdate) (now : Nat) : Habit :=
  { h with
    title := u.title.getD h.title,
    description := u.description.getD h.description,
    is_completed := u.is_completed.getD h.is_completed,
    completed_at :=
      match u.is_completed with
      | some true => some now
      | some false => none
      | none => h.completed_at }

/-- `update_habit` (habits.py lines 135-185): 404, then the admin-first
permission check, then the completion handling and partial update. -/
def update_habit (db : List Habit) (current_user : Actor) (habit_id : Nat)
    (habit_update : HabitUpdate) (now : Nat) : OpResult (Habit × List Habit) :=
  match db.find? fun h => h.id == habit_id with
  | none => .notFound
  | some habit =>
    if current_user.role ≠ ADMIN ∧ habit.user_id ≠ current_user.id then
      .forbidden
    else
      let h' := applyHabitUpdate habit habit_update now
      .ok (h', db.map fun x => if x.id == habit_id then h' else x)

/-- `delete_habit` (habits.py lines 187-222): 404, then the admin-first
permission check, then hard delete. -/
def delete_habit (db : List Habit) (current_user : Actor) (habit_id : Nat) :
    OpResult (List Habit) :=
  match db.find? fun h => h.id == habit_id with
  | none => .notFound
  | some habit =>
    if current_user.role ≠ ADMIN ∧ habit.user_id ≠ current_user.id then
      .forbidden
    else
      .ok (db.filter fun x => !(x.id == habit_id))

/-! ## Note controller (src/controllers/notes.py) -/

/-- Request schema `NoteCreate` (src/serializers/note.py). -/
structure NoteCreate where
  title : String
  content : Option String
deriving DecidableEq, Repr

/-- `create_note` (notes.py lines 13-40). -/
def create_note (db : List Note) (current_user : Actor) (note : NoteCreate)
    (newId created : Nat) : Note × List Note :=
  let new_note : Note :=
    { id := newId, user_id := current_user.id, title := note.title,
      content := note.content, created_at := created }
  (new_note, db ++ [new_note])

/-- Newest-first ordering on notes. -/
def noteNewer (a b : Note) : Prop := b.created_at ≤ a.created_at

instance : DecidableRel noteNewer := fun _ _ => Nat.decLe _ _

instance : IsTotal Note noteNewer := ⟨fun a b => le_total b.created_at a.created_at⟩

instance : IsTrans Note noteNewer := ⟨fun _ _ _ h1 h2 => le_trans h2 h1⟩

/-- `get_user_notes` (notes.py lines 43-72): optional search over title
and content (content is nullable, so a NULL content only matches through
the title); no completion filter and no pagination on this endpoint. -/
def get_user_notes (db : List Note) (current_user : Actor)
    (search : Option String) : List Note :=
  List.insertionSort noteNewer (db.filter fun n =>
    n.user_id == current_user.id
      && (match search with
          | none => true
          | some s => ilikeContains n.title s || ilikeOpt n.content s))

/-- `get_note` (notes.py lines 75-99): 404 before the owner-first
permission check. -/
def get_note (db : List Note) (current_user : Actor) (note_id : Nat) :
    OpResult Note :=
  match db.find? fun n => n.id == note_id with
  | none => .notFound
  | some note =>
    if note.user_id ≠ current_user.id ∧ current_user.role ≠ ADMIN then
      .forbidden
    else
      .ok note

/-- Request schema `NoteUpdate` (src/serializers/note.py): optional title;
content may be set to SQL NULL explicitly. -/
structure NoteUpdate where
  title : Option String
  content : Option (Option String)
deriving DecidableEq, Repr

/-- The setattr loop of `update_note` over `dict(exclude_unset=True)`. -/
def applyNoteUpdate (n : Note) (u : NoteUpdate) : Note :=
  { n with
    title := u.title.getD n.title,
    content := u.content.getD n.content }

/-- `update_note` (notes.py lines 102-145). -/
def update_note (db : List Note) (current_user : Actor) (note_id : Nat)
    (note_update : NoteUpdate) : OpResult (Note × List Note) :=
  match db.find? fun n => n.id == note_id with
  | none => .notFound
  | some note =>
    if note.user_id ≠ current_user.id ∧ current_user.role ≠ ADMIN then
      .forbidden
    else
      let n' := applyNoteUpdate note note_update
      .ok (n', db.map fun x => if x.id == note_id then n' else x)

/-- `delete_note` (notes.py lines 148-186). -/
def delete_note (db : List Note) (current_user : Actor) (note_id : Nat) :
    OpResult (List Note) :=
  match db.find? fun n => n.id == note_id with
  | none => .notFound
  | some note =>
    if note.user_id ≠ current_user.id ∧ current_user.role ≠ ADMIN then
      .forbidden
    else
      .ok (db.filter fun x => !(x.id == note_id))

/-! ## Daily goal controller (src/controllers/daily_goals.py) -/

/-- Request schema `DailyGoalCreate` (src/serializers/daily_goal.py):
title, description and goal_date all required. -/
structure DailyGoalCreate where
  title : String
  description : String
  goal_date : Nat
deriving DecidableEq, Repr

/-- A raw daily-goal create body: pydantic drops any caller-supplied
`is_completed` or `user_id` key. -/
structure RawDailyGoalCreate where
  title : String
  description : String
  goal_date : Nat
  is_completed : Option Bool
  user_id : Option Nat
deriving DecidableEq, Repr

/-- Pydantic validation of a raw body against `DailyGoalCreate`. -/
def parseDailyGoalCreate (r : RawDailyGoalCreate) : DailyGoalCreate :=
  { title := r.title, description := r.description, goal_date := r.goal_date }

/-- `create_daily_goal` (daily_goals.py lines 96-132): the row is created
with `is_completed=False` and `user_id=current_user.id`. -/
def create_daily_goal (db : List DailyGoal) (current_user : Actor)
    (goal : DailyGoalCreate) (newId created : Nat) : DailyGoal × List DailyGoal :=
  let new_goal : DailyGoal :=
    { id := newId, title := goal.title, description := some goal.description,
      goal_date := goal.goal_date, is_completed := false,
      user_id := current_user.id, created_at := created }
  (new_goal, db ++ [new_goal])

/-- Newest-first ordering on daily goals. -/
def goalNewer (a b : DailyGoal) : Prop := b.created_at ≤ a.created_at

instance : DecidableRel goalNewer := fun _ _ => Nat.decLe _ _

instance : IsTotal DailyGoal goalNewer := ⟨fun a b => le_total b.created_at a.created_at⟩

instance : IsTrans DailyGoal goalNewer := ⟨fun _ _ _ h1 h2 => le_trans h2 h1⟩

/-- `get_daily_goals` (daily_goals.py lines 14-64): goal_date, completed
and search filters, newest-first ordering, then SQL LIMIT/OFFSET
pagination (OFFSET is applied before LIMIT in SQL, whatever the order of
the two builder calls).  FastAPI validates `1 ≤ limit ≤ 100` (default 20)
and `0 ≤ offset` before the handler runs. -/
def get_daily_goals (db : List DailyGoal) (current_user : Actor)
    (goal_date : Option Nat) (completed : Option Bool) (search : Option String)
    (limit offset : Nat) : List DailyGoal :=
  (((List.insertionSort goalNewer (db.filter fun g =>
    g.user_id == current_user.id
      && (match goal_date with
          | none => true
          | some d => g.goal_date == d)
      && (match completed with
          | none => true
          | some b => g.is_completed == b)
      && (match search with
          | none => true
          | some s => ilikeContains g.title s || ilikeOpt g.description s))).drop offset).take limit)

/-- `get_daily_goal` (daily_goals.py lines 67-93): 404 before the
owner-first permission check. -/
def get_daily_goal (db : List DailyGoal) (current_user : Actor) (goal_id : Nat) :
    OpResult DailyGoal :=
  match db.find? fun g => g.id == goal_id with
  | none => .notFound
  | some goal =>
    if goal.user_id ≠ current_user.id ∧ current_user.role ≠ ADMIN then
      .forbidden
    else
      .ok goal

/-- Request schema `DailyGoalUpdate` (src/serializers/daily_goal.py):
every field optional; description may be set to SQL NULL explicitly. -/
structure DailyGoalUpdate where
  title : Option String
  description : Option (Option String)
  goal_date : Option Nat
  is_completed : Option Bool
deriving DecidableEq, Repr

/-- The setattr loop of `update_daily_goal` over
`dict(exclude_unset=True)`. -/
def applyDailyGoalUpdate (g : DailyGoal) (u : DailyGoalUpdate) : DailyGoal :=
  { g with
    title := u.title.getD g.title,
    description := u.description.getD g.description,
    goal_date := u.goal_date.getD g.goal_date,
    is_completed := u.is_completed.getD g.is_completed }

/-- `update_daily_goal` (daily_goals.py lines 135-181). -/
def update_daily_goal (db : List DailyGoal) (current_user : Actor)
    (goal_id : Nat) (goal_update : DailyGoalUpdate) :
    OpResult (DailyGoal × List DailyGoal) :=
  match db.find? fun g => g.id == goal_id with
  | none => .notFound
  | some db_goal =>
    if db_goal.user_id ≠ current_user.id ∧ current_user.role ≠ ADMIN then
      .forbidden
    else
      let g' := applyDailyGoalUpdate db_goal goal_update
      .ok (g', db.map fun x => if x.id == goal_id then g' else x)

/-- `delete_daily_goal` (daily_goals.py lines 184-224). -/
def delete_daily_goal (db : List DailyGoal) (current_user : Actor)
    (goal_id : Nat) : OpResult (List DailyGoal) :=
  match db.find? fun g => g.id == goal_id with
  | none => .notFound
  | some db_goal =>
    if db_goal.user_id ≠ current_user.id ∧ current_user.role ≠ ADMIN then
      .forbidden
    else
      .ok (db.filter fun x => !(x.id == goal_id))

/-! ## User model (src/models/user.py) -/

/-- Abstraction of the nullable `password_hash` column together with the
shape passlib sees: the column is NULL, it holds a string that passlib
cannot identify as a hash, or it holds a well-formed bcrypt hash — in
which case `hashed pw` stands for a bcrypt hash of the password `pw`
(bcrypt verification of candidate `p` against it succeeds iff `p = pw`). -/
inductive StoredHash where
  | null
  | malformed (s : String)
  | hashed (password : String)
deriving DecidableEq, Repr

/-- The exceptions the passlib call can raise: a `TypeError` when the hash
argument is not a string (the column was NULL), an `UnknownHashError`
(a `ValueError`) when the string cannot be identified as any hash. -/
inductive PasslibError where
  | typeError
  | unknownHash
deriving DecidableEq, Repr

/-- Models the external `passlib` call `pwd_context.verify(password, hash)`
per its documented behaviour: raises `TypeError` on a non-string hash,
raises `UnknownHashError` on an unidentifiable hash string, otherwise
recomputes with the embedded salt and compares. -/
def pwd_context_verify (password : String) (h : StoredHash) :
    Except PasslibError Bool :=
  match h with
  | .null => .error .typeError
  | .malformed _ => .error .unknownHash
  | .hashed pw => .ok (password == pw)

/-- A `users` row (src/models/user.py `UserModel`).  The role column is a
`VARCHAR(50)` with default CUSTOMER; the empty string models a falsy
(NULL/empty) role, which the code guards against everywhere. -/
structure UserRec where
  id : Nat
  username : String
  email : String
  password_hash : StoredHash
  role : String
deriving DecidableEq, Repr

/-- `UserModel.verify_password` (user.py lines 30-31): a direct delegation
to passlib; any passlib exception propagates to the caller. -/
def verify_password (u : UserRec) (password : String) : Except PasslibError Bool :=
  pwd_context_verify password u.password_hash

/-- The claims of the JWT issued by `generate_token`: expiry, issued-at
(both integer Unix timestamps after PyJWT serialisation), subject and
role. -/
structure TokenPayload where
  exp : Nat
  iat : Nat
  sub : String
  role : String
deriving DecidableEq, Repr

/-- `UserModel.generate_token` (user.py lines 33-44): expiry is the
current time plus `timedelta(days=1)` = 86400 seconds, issued-at is the
current time, subject is the stringified user id, role is the stored role
defaulted to CUSTOMER when falsy.  `now` is the single clock reading of
the request. -/
def generate_token (u : UserRec) (now : Nat) : TokenPayload :=
  let role_value := if u.role = "" then "CUSTOMER" else u.role
  { exp := now + 86400, iat := now, sub := toString u.id, role := role_value }

/-- The authentication failures of token verification. -/
inductive AuthError where
  | expired
  | invalid
deriving DecidableEq, Repr

/-- Modelled from the spec: the token-verification dependency
(dependencies/get_current_user.py) is absent from src.  Per the spec,
verification fails with Expired when the current time is at or after the
expiry claim, and otherwise yields the identity carried by the claims. -/
def verify_token (t : TokenPayload) (now : Nat) : Except AuthError (String × String) :=
  if t.exp ≤ now then .error .expired else .ok (t.sub, t.role)

/-! ## User controller (src/controllers/users.py) -/

/-- Request schema `UserSchema` (src/serializers/user.py): the role field
is an optional string with pydantic default CUSTOMER, so `none` here only
arises from an explicit JSON null (an omitted key parses to
`some CUSTOMER`). -/
structure UserSchemaIn where
  username : String
  email : String
  password : String
  role : Option String
deriving DecidableEq, Repr

/-- The Python upper call on a role string: uppercase every character
(the role strings at play are ASCII). -/
def strUpper (s : String) : String := String.mk (s.data.map Char.toUpper)

/-- The role normalisation of `create_user` (users.py lines 48-55): a
truthy role string is uppercased and stored as is; a falsy one (absent or
empty) falls back to `UserRole.CUSTOMER.value`. -/
def normalizeRole (r : Option String) : String :=
  match r with
  | some s => if s = "" then "CUSTOMER" else strUpper s
  | none => "CUSTOMER"

/-- Which duplicate unique field a conflict response names. -/
inductive ConflictKind where
  | username
  | email
deriving DecidableEq, Repr

/-- Outcome of registration: the conflict-shaped body (served with HTTP
200 in this code base) or the success body, which carries the freshly
issued token when `generate_token` did not raise. -/
inductive RegResult where
  | conflict (k : ConflictKind)
  | success (u : UserRec) (token : Option TokenPayload)
deriving DecidableEq, Repr

/-- `create_user` (users.py lines 11-173).  `db` is the table as seen by
the pre-insert duplicate check, `raceDb` the table at the moment of the
INSERT — they differ exactly when a concurrent registration commits in
between.  The pre-check (lines 20-46) finds the first row whose username
or email matches and answers with the matching kind.  Otherwise the INSERT
runs against `raceDb`; a duplicate key there raises `IntegrityError`
whose message names the violated unique constraint
(users_username_key / users_email_key), and the handler (lines 117-142)
keyword-matches that message back to the same username/email conflict
bodies as the pre-check.  On success (lines 57-92) the row is committed
with the normalised role and the bcrypt hash of the password, then
`generate_token` is attempted: a failure there is swallowed (lines 73-77)
and merely omits the token from the response.  `tokenOk` models whether
that call raised; `now` is the clock reading used for its claims. -/
def create_user (db raceDb : List UserRec) (user : UserSchemaIn)
    (newId : Nat) (tokenOk : Bool) (now : Nat) : RegResult × List UserRec :=
  match db.find? fun ex => ex.username == user.username || ex.email == user.email with
  | some existing_user =>
    if existing_user.username = user.username then
      (.conflict .username, db)
    else
      (.conflict .email, db)
  | none =>
    if raceDb.any fun ex => ex.username == user.username then
      (.conflict .username, raceDb)
    else if raceDb.any fun ex => ex.email == user.email then
      (.conflict .email, raceDb)
    else
      let new_user : UserRec :=
        { id := newId, username := user.username, email := user.email,
          password_hash := .hashed user.password,
          role := normalizeRole user.role }
      let token := if tokenOk then some (generate_token new_user now) else none
      (.success new_user token, raceDb ++ [new_user])

/-- Outcome of `login`: 401, the 500 raised when an exception escapes the
handler body, or the 200 body with token and role. -/
inductive LoginResult where
  | unauthorized
  | internalError
  | success (token : TokenPayload) (role : String)
deriving DecidableEq, Repr

/-- `login` (users.py lines 176-210): look up by username only; a passlib
exception from `verify_password` escapes the credential check and is
caught by the catch-all handler as a 500; a missing user or a false
verification is a 401; otherwise a token is issued and the stored role
(defaulted to CUSTOMER when falsy) is returned. -/
def login (db : List UserRec) (username password : String) (now : Nat) :
    LoginResult :=
  match db.find? fun u => u.username == username with
  | none => .unauthorized
  | some db_user =>
    match verify_password db_user password with
    | .error _ => .internalError
    | .ok false => .unauthorized
    | .ok true =>
      .success (generate_token db_user now)
        (if db_user.role = "" then "CUSTOMER" else db_user.role)

/-! ## The shared access rule (spec section 4.3) -/

/-- The three-way outcome the spec's access policy assigns to a
single-item request. -/
inductive AccessDecision where
  | notFound
  | forbidden
  | allowed
deriving DecidableEq, Repr

/-- Written from the spec, for comparison with the code: existence is
checked first — no entity with the id means NotFound regardless of the
actor; an existing entity with an actor that is neither ADMIN nor the
owner means Forbidden; otherwise the operation proceeds. -/
def specAccessRule (owner : Option Nat) (actor : Actor) : AccessDecision :=
  match owner with
  | none => .notFound
  | some uid =>
    if actor.role ≠ ADMIN ∧ actor.id ≠ uid then .forbidden else .allowed

/-- The decision class of a controller outcome. -/
def OpResult.decision {α : Type} : OpResult α → AccessDecision
  | .notFound => .notFound
  | .forbidden => .forbidden
  | .ok _ => .allowed

/-- Owner of the task a given id resolves to, if any. -/
def taskOwner (db : List Task) (i : Nat) : Option Nat :=
  (db.find? fun t => t.id == i).map fun t => t.user_id

/-- Owner of the habit a given id resolves to, if any. -/
def habitOwner (db : List Habit) (i : Nat) : Option Nat :=
  (db.find? fun h => h.id == i).map fun h => h.user_id

/-- Owner of the note a given id resolves to, if any. -/
def noteOwner (db : List Note) (i : Nat) : Option Nat :=
  (db.find? fun n => n.id == i).map fun n => n.user_id

/-- Owner of the daily goal a given id resolves to, if any. -/
def goalOwner (db : List DailyGoal) (i : Nat) : Option Nat :=
  (db.find? fun g => g.id == i).map fun g => g.user_id

/-- The Habit invariant stated by the spec: `completed_at` is set iff
`is_completed` is true. -/
def habitInv (h : Habit) : Prop := h.completed_at ≠ none ↔ h.is_completed = true

instance (h : Habit) : Decidable (habitInv h) := by
  unfold habitInv
  infer_instance

/-- A task owned by user 7, used as concrete test data. -/
def mkTask (i : Nat) : Task :=
  { id := i, title := "t", description := "d", due_date := none,
    is_completed := false, created_at := i, user_id := 7 }

/-- A table of 101 tasks all owned by user 7. -/
def db101 : List Task := (List.range 101).map mkTask

theorem getSingleTask_decision (db : List Task) (cu : Actor) (i : Nat) :
    (get_single_task db cu i).decision = specAccessRule (taskOwner db i) cu := by
  unfold get_single_task taskOwner specAccessRule
  cases db.find? fun t => t.id == i with
  | none => rfl
  | some t =>
    by_cases h1 : cu.role = ADMIN
    · simp [h1, OpResult.decision]
    · by_cases h2 : cu.id = t.user_id
      · simp [h1, h2, OpResult.decision]
      · have h3 : t.user_id ≠ cu.id := fun hc => h2 hc.symm
        simp [h1, h2, h3, OpResult.decision]

theorem updateTask_decision (db : List Task) (cu : Actor) (i : Nat) (u : TaskUpdate) :
    (update_task db cu i u).decision = specAccessRule (taskOwner db i) cu := by
  unfold update_task taskOwner specAccessRule
  cases db.find? fun t => t.id == i with
  | none => rfl
  | some t =>
    by_cases h1 : cu.role = ADMIN
    · simp [h1, OpResult.decision]
    · by_cases h2 : cu.id = t.user_id
      · simp [h1, h2, OpResult.decision]
      · have h3 : t.user_id ≠ cu.id := fun hc => h2 hc.symm
        simp [h1, h2, h3, OpResult.decision]

theorem deleteTask_decision (db : List Task) (cu : Actor) (i : Nat) :
    (delete_task db cu i).decision = specAccessRule (taskOwner db i) cu := by
  unfold delete_task taskOwner specAccessRule
  cases db.find? fun t => t.id == i with
  | none => rfl
  | some t =>
    by_cases h1 : cu.role = ADMIN
    · simp [h1, OpResult.decision]
    · by_cases h2 : cu.id = t.user_id
      · simp [h1, h2, OpResult.decision]
      · have h3 : t.user_id ≠ cu.id := fun hc => h2 hc.symm
        simp [h1, h2, h3, OpResult.decision]

theorem getHabit_decision (db : List Habit) (cu : Actor) (i : Nat) :
    (get_habit db cu i).decision = specAccessRule (habitOwner db i) cu := by
  unfold get_habit habitOwner specAccessRule
  cases db.find? fun h => h.id == i with
  | none => rfl
  | some h =>
    by_cases h1 : cu.role = ADMIN
    · simp [h1, OpResult.decision]
    · by_cases h2 : cu.id = h.user_id
      · simp [h1, h2, OpResult.decision]
      · have h3 : h.user_id ≠ cu.id := fun hc => h2 hc.symm
        simp [h1, h2, h3, OpResult.decision]

theorem updateHabit_decision (db : List Habit) (cu : Actor) (i : Nat)
    (u : HabitUpdate) (now : Nat) :
    (update_habit db cu i u now).decision = specAccessRule (habitOwner db i) cu := by
  unfold update_habit habitOwner specAccessRule
  cases db.find? fun h => h.id == i with
  | none => rfl
  | some h =>
    by_cases h1 : cu.role = ADMIN
    · simp [h1, OpResult.decision]
    · by_cases h2 : cu.id = h.user_id
      · simp [h1, h2, OpResult.decision]
      · have h3 : h.user_id ≠ cu.id := fun hc => h2 hc.symm
        simp [h1, h2, h3, OpResult.decision]

theorem deleteHabit_decision (db : List Habit) (cu : Actor) (i : Nat) :
    (delete_habit db cu i).decision = specAccessRule (habitOwner db i) cu := by
  unfold delete_habit habitOwner specAccessRule
  cases db.find? fun h => h.id == i with
  | none => rfl
  | some h =>
    by_cases h1 : cu.role = ADMIN
    · simp [h1, OpResult.decision]
    · by_cases h2 : cu.id = h.user_id
      · simp [h1, h2, OpResult.decision]
      · have h3 : h.user_id ≠ cu.id := fun hc => h2 hc.symm
        simp [h1, h2, h3, OpResult.decision]

theorem getNote_decision (db : List Note) (cu : Actor) (i : Nat) :
    (get_note db cu i).decision = specAccessRule (noteOwner db i) cu := by
  unfold get_note noteOwner specAccessRule
  cases db.find? fun n => n.id == i with
  | none => rfl
  | some n =>
    by_cases h1 : cu.role = ADMIN
    · simp [h1, OpResult.decision]
    · by_cases h2 : cu.id = n.user_id
      · simp [h1, h2, OpResult.decision]
      · have h3 : n.user_id ≠ cu.id := fun hc => h2 hc.symm
        simp [h1, h2, h3, OpResult.decision]

theorem updateNote_decision (db : List Note) (cu : Actor) (i : Nat) (u : NoteUpdate) :
    (update_note db cu i u).decision = specAccessRule (noteOwner db i) cu := by
  unfold update_note noteOwner specAccessRule
  cases db.find? fun n => n.id == i with
  | none => rfl
  | some n =>
    by_cases h1 : cu.role = ADMIN
    · simp [h1, OpResult.decision]
    · by_cases h2 : cu.id = n.user_id
      · simp [h1, h2, OpResult.decision]
      · have h3 : n.user_id ≠ cu.id := fun hc => h2 hc.symm
        simp [h1, h2, h3, OpResult.decision]

theorem deleteNote_decision (db : List Note) (cu : Actor) (i : Nat) :
    (delete_note db cu i).decision = specAccessRule (noteOwner db i) cu := by
  unfold delete_note noteOwner specAccessRule
  cases db.find? fun n => n.id == i with
  | none => rfl
  | some n =>
    by_cases h1 : cu.role = ADMIN
    · simp [h1, OpResult.decision]
    · by_cases h2 : cu.id = n.user_id
      · simp [h1, h2, OpResult.decision]
      · have h3 : n.user_id ≠ cu.id := fun hc => h2 hc.symm
        simp [h1, h2, h3, OpResult.decision]

theorem getDailyGoal_decision (db : List DailyGoal) (cu : Actor) (i : Nat) :
    (get_daily_goal db cu i).decision = specAccessRule (goalOwner db i) cu := by
  unfold get_daily_goal goalOwner specAccessRule
  cases db.find? fun g => g.id == i with
  | none => rfl
  | some g =>
    by_cases h1 : cu.role = ADMIN
    · simp [h1, OpResult.decision]
    · by_cases h2 : cu.id = g.user_id
      · simp [h1, h2, OpResult.decision]
      · have h3 : g.user_id ≠ cu.id := fun hc => h2 hc.symm
        simp [h1, h2, h3, OpResult.decision]

theorem updateDailyGoal_decision (db : List DailyGoal) (cu : Actor) (i : Nat)
    (u : DailyGoalUpdate) :
    (update_daily_goal db cu i u).decision = specAccessRule (goalOwner db i) cu := by
  unfold update_daily_goal goalOwner specAccessRule
  cases db.find? fun g => g.id == i with
  | none => rfl
  | some g =>
    by_cases h1 : cu.role = ADMIN
    · simp [h1, OpResult.decision]
    · by_cases h2 : cu.id = g.user_id
      · simp [h1, h2, OpResult.decision]
      · have h3 : g.user_id ≠ cu.id := fun hc => h2 hc.symm
        simp [h1, h2, h3, OpResult.decision]

theorem deleteDailyGoal_decision (db : List DailyGoal) (cu : Actor) (i : Nat) :
    (delete_daily_goal db cu i).decision = specAccessRule (goalOwner db i) cu := by
  unfold delete_daily_goal goalOwner specAccessRule
  cases db.find? fun g => g.id == i with
  | none => rfl
  | some g =>
    by_cases h1 : cu.role = ADMIN
    · simp [h1, OpResult.decision]
    · by_cases h2 : cu.id = g.user_id
      · simp [h1, h2, OpResult.decision]
      · have h3 : g.user_id ≠ cu.id := fun hc => h2 hc.symm
        simp [h1, h2, h3, OpResult.decision]

/-- C1: every single-item get, update and delete operation decides its
outcome by the one shared rule: a missing id is NotFound regardless of the
actor, an existing entity with an actor that is neither ADMIN nor the
owner is Forbidden, and otherwise the operation proceeds — existence is
checked before permission.  The twelve existing operations (the User
resource exposes no single-item endpoints) all equal `specAccessRule`
applied to the owner of the resolved entity. -/
theorem spec_C1_uniform_access_rule :
    (∀ db cu i, (get_single_task db cu i).decision = specAccessRule (taskOwner db i) cu)
    ∧ (∀ db cu i u, (update_task db cu i u).decision = specAccessRule (taskOwner db i) cu)
    ∧ (∀ db cu i, (delete_task db cu i).decision = specAccessRule (taskOwner db i) cu)
    ∧ (∀ db cu i, (get_habit db cu i).decision = specAccessRule (habitOwner db i) cu)
    ∧ (∀ db cu i u now, (update_habit db cu i u now).decision = specAccessRule (habitOwner db i) cu)
    ∧ (∀ db cu i, (delete_habit db cu i).decision = specAccessRule (habitOwner db i) cu)
    ∧ (∀ db cu i, (get_note db cu i).decision = specAccessRule (noteOwner db i) cu)
    ∧ (∀ db cu i u, (update_note db cu i u).decision = specAccessRule (noteOwner db i) cu)
    ∧ (∀ db cu i, (delete_note db cu i).decision = specAccessRule (noteOwner db i) cu)
    ∧ (∀ db cu i, (get_daily_goal db cu i).decision = specAccessRule (goalOwner db i) cu)
    ∧ (∀ db cu i u, (update_daily_goal db cu i u).decision = specAccessRule (goalOwner db i) cu)
    ∧ (∀ db cu i, (delete_daily_goal db cu i).decision = specAccessRule (goalOwner db i) cu) :=
  ⟨getSingleTask_decision, updateTask_decision, deleteTask_decision,
   getHabit_decision, updateHabit_decision, deleteHabit_decision,
   getNote_decision, updateNote_decision, deleteNote_decision,
   getDailyGoal_decision, updateDailyGoal_decision, deleteDailyGoal_decision⟩

/-- C6: every create on Task, Habit or DailyGoal goes through the
serializer, which drops any caller-supplied `is_completed` (and `user_id`,
and for habits `completed_at`), and the controller then hard-codes
`is_completed = false` and `user_id = current_user.id` on the new row —
whatever the raw request carried. -/
theorem spec_C6_create_initial_state :
    (∀ db cu (raw : RawTaskCreate) newId created,
      (create_task db cu (parseTaskCreate raw) newId created).1.is_completed = false
        ∧ (create_task db cu (parseTaskCreate raw) newId created).1.user_id = cu.id)
    ∧ (∀ db cu (raw : RawHabitCreate) newId created,
      (create_habit db cu (parseHabitCreate raw) newId created).1.is_completed = false
        ∧ (create_habit db cu (parseHabitCreate raw) newId created).1.completed_at = none
        ∧ (create_habit db cu (parseHabitCreate raw) newId created).1.user_id = cu.id)
    ∧ (∀ db cu (raw : RawDailyGoalCreate) newId created,
      (create_daily_goal db cu (parseDailyGoalCreate raw) newId created).1.is_completed = false
        ∧ (create_daily_goal db cu (parseDailyGoalCreate raw) newId created).1.user_id = cu.id) :=
  ⟨fun _ _ _ _ _ => ⟨rfl, rfl⟩,
   fun _ _ _ _ _ => ⟨rfl, rfl, rfl⟩,
   fun _ _ _ _ _ => ⟨rfl, rfl⟩⟩

/-- C5: a partial update applies exactly the supplied fields and leaves
every unsupplied field — and the id and the ownership — at its prior
value, on each of the four updatable resources. -/
theorem spec_C5_partial_update_frame :
    (∀ (t : Task) (u : TaskUpdate),
      (applyTaskUpdate t u).id = t.id
      ∧ (applyTaskUpdate t u).user_id = t.user_id
      ∧ (applyTaskUpdate t u).created_at = t.created_at
      ∧ (u.title = none → (applyTaskUpdate t u).title = t.title)
      ∧ (∀ v, u.title = some v → (applyTaskUpdate t u).title = v)
      ∧ (u.description = none → (applyTaskUpdate t u).description = t.description)
      ∧ (∀ v, u.description = some v → (applyTaskUpdate t u).description = v)
      ∧ (u.due_date = none → (applyTaskUpdate t u).due_date = t.due_date)
      ∧ (∀ v, u.due_date = some v → (applyTaskUpdate t u).due_date = v)
      ∧ (u.is_completed = none → (applyTaskUpdate t u).is_completed = t.is_completed)
      ∧ (∀ v, u.is_completed = some v → (applyTaskUpdate t u).is_completed = v))
    ∧ (∀ (n : Note) (u : NoteUpdate),
      (applyNoteUpdate n u).id = n.id
      ∧ (applyNoteUpdate n u).user_id = n.user_id
      ∧ (applyNoteUpdate n u).created_at = n.created_at
      ∧ (u.title = none → (applyNoteUpdate n u).title = n.title)
      ∧ (∀ v, u.title = some v → (applyNoteUpdate n u).title = v)
      ∧ (u.content = none → (applyNoteUpdate n u).content = n.content)
      ∧ (∀ v, u.content = some v → (applyNoteUpdate n u).content = v))
    ∧ (∀ (g : DailyGoal) (u : DailyGoalUpdate),
      (applyDailyGoalUpdate g u).id = g.id
      ∧ (applyDailyGoalUpdate g u).user_id = g.user_id
      ∧ (applyDailyGoalUpdate g u).created_at = g.created_at
      ∧ (u.title = none → (applyDailyGoalUpdate g u).title = g.title)
      ∧ (∀ v, u.title = some v → (applyDailyGoalUpdate g u).title = v)
      ∧ (u.description = none → (applyDailyGoalUpdate g u).description = g.description)
      ∧ (∀ v, u.description = some v → (applyDailyGoalUpdate g u).description = v)
      ∧ (u.goal_date = none → (applyDailyGoalUpdate g u).goal_date = g.goal_date)
      ∧ (∀ v, u.goal_date = some v → (applyDailyGoalUpdate g u).goal_date = v)
      ∧ (u.is_completed = none → (applyDailyGoalUpdate g u).is_completed = g.is_completed)
      ∧ (∀ v, u.is_completed = some v → (applyDailyGoalUpdate g u).is_completed = v))
    ∧ (∀ (h : Habit) (u : HabitUpdate) (now : Nat),
      (applyHabitUpdate h u now).id = h.id
      ∧ (applyHabitUpdate h u now).user_id = h.user_id
      ∧ (applyHabitUpdate h u now).created_at = h.created_at
      ∧ (u.title = none → (applyHabitUpdate h u now).title = h.title)
      ∧ (∀ v, u.title = some v → (applyHabitUpdate h u now).title = v)
      ∧ (u.description = none → (applyHabitUpdate h u now).description = h.description)
      ∧ (∀ v, u.description = some v → (applyHabitUpdate h u now).description = v)
      ∧ (u.is_completed = none → (applyHabitUpdate h u now).is_completed = h.is_completed
          ∧ (applyHabitUpdate h u now).completed_at = h.completed_at)
      ∧ (∀ v, u.is_completed = some v → (applyHabitUpdate h u now).is_completed = v)) := by
  refine ⟨fun t u => ?_, fun n u => ?_, fun g u => ?_, fun h u now => ?_⟩
  · obtain ⟨f1, f2, f3, f4⟩ := u
    cases f1 <;> cases f2 <;> cases f3 <;> cases f4 <;> simp [applyTaskUpdate]
  · obtain ⟨f1, f2⟩ := u
    cases f1 <;> cases f2 <;> simp [applyNoteUpdate]
  · obtain ⟨f1, f2, f3, f4⟩ := u
    cases f1 <;> cases f2 <;> cases f3 <;> cases f4 <;> simp [applyDailyGoalUpdate]
  · obtain ⟨f1, f2, f3⟩ := u
    cases f1 <;> cases f2 <;> cases f3 <;> simp [applyHabitUpdate]

/-- Witness for C5: a task update supplying only a new title keeps the
prior description and ownership; a note update supplying an explicit NULL
content clears it and keeps the title. -/
theorem spec_C5_witness :
    (applyTaskUpdate ⟨1, "a", "b", none, false, 5, 7⟩ ⟨some "c", none, none, none⟩).title = "c"
    ∧ (applyTaskUpdate ⟨1, "a", "b", none, false, 5, 7⟩ ⟨some "c", none, none, none⟩).description = "b"
    ∧ (applyTaskUpdate ⟨1, "a", "b", none, false, 5, 7⟩ ⟨some "c", none, none, none⟩).user_id = 7
    ∧ (applyNoteUpdate ⟨2, 7, "n", some "x", 3⟩ ⟨none, some none⟩).content = none
    ∧ (applyNoteUpdate ⟨2, 7, "n", some "x", 3⟩ ⟨none, some none⟩).title = "n" := by
  obtain ⟨htask, hnote, -, -⟩ := spec_C5_partial_update_frame
  obtain ⟨-, huid, -, -, hts, hdn, -, -, -, -, -⟩ :=
    htask ⟨1, "a", "b", none, false, 5, 7⟩ ⟨some "c", none, none, none⟩
  obtain ⟨-, -, -, htn, -, -, hcs⟩ := hnote ⟨2, 7, "n", some "x", 3⟩ ⟨none, some none⟩
  exact ⟨hts "c" rfl, hdn rfl, huid, hcs none rfl, htn rfl⟩

theorem applyHabitUpdate_inv (h : Habit) (u : HabitUpdate) (now : Nat)
    (hh : habitInv h) : habitInv (applyHabitUpdate h u now) := by
  obtain ⟨f1, f2, f3⟩ := u
  cases f3 with
  | none => simpa [applyHabitUpdate, habitInv] using hh
  | some b => cases b <;> simp [applyHabitUpdate, habitInv]

/-- C4: habit creation establishes the completed_at-iff-is_completed
invariant; an update that supplies `is_completed = true` forces
`completed_at` to the current time and one that supplies
`is_completed = false` clears it, in that same call, even when the raw
request also carried a `completed_at` value (the serializer drops that
key); and the full update operation preserves the invariant on every row
of the table. -/
theorem spec_C4_habit_completed_at_iff :
    (∀ db cu (c : HabitCreate) newId created,
      habitInv (create_habit db cu c newId created).1)
    ∧ (∀ (h : Habit) (raw : RawHabitUpdate) now,
        raw.is_completed = some true →
          (applyHabitUpdate h (parseHabitUpdate raw) now).completed_at = some now
          ∧ (applyHabitUpdate h (parseHabitUpdate raw) now).is_completed = true)
    ∧ (∀ (h : Habit) (raw : RawHabitUpdate) now,
        raw.is_completed = some false →
          (applyHabitUpdate h (parseHabitUpdate raw) now).completed_at = none
          ∧ (applyHabitUpdate h (parseHabitUpdate raw) now).is_completed = false)
    ∧ (∀ db cu habit_id (raw : RawHabitUpdate) now h' db',
        (∀ x ∈ db, habitInv x) →
        update_habit db cu habit_id (parseHabitUpdate raw) now = .ok (h', db') →
        habitInv h' ∧ ∀ x ∈ db', habitInv x) := by
  refine ⟨?_, ?_, ?_, ?_⟩
  · intro db cu c newId created
    simp [create_habit, habitInv]
  · intro h raw now hic
    exact ⟨by simp [applyHabitUpdate, parseHabitUpdate, hic],
           by simp [applyHabitUpdate, parseHabitUpdate, hic]⟩
  · intro h raw now hic
    exact ⟨by simp [applyHabitUpdate, parseHabitUpdate, hic],
           by simp [applyHabitUpdate, parseHabitUpdate, hic]⟩
  · intro db cu habit_id raw now h' db' hinv hupd
    unfold update_habit at hupd
    split at hupd
    · exact absurd hupd (by simp)
    · rename_i habit hfind
      split at hupd
      · exact absurd hupd (by simp)
      · simp only [OpResult.ok.injEq, Prod.mk.injEq] at hupd
        obtain ⟨hh, hdb⟩ := hupd
        have hmem : habit ∈ db := List.mem_of_find?_eq_some hfind
        have hinvHabit : habitInv habit := hinv habit hmem
        constructor
        · rw [← hh]
          exact applyHabitUpdate_inv habit (parseHabitUpdate raw) now hinvHabit
        · intro x hx
          rw [← hdb] at hx
          obtain ⟨y, hy, hfy⟩ := List.mem_map.mp hx
          by_cases hid : y.id == habit_id
          · rw [if_pos hid] at hfy
            rw [← hfy]
            exact applyHabitUpdate_inv habit (parseHabitUpdate raw) now hinvHabit
          · rw [if_neg hid] at hfy
            rw [← hfy]
            exact hinv y hy

/-- Witness for C4: marking a fresh habit completed at time 5, through a
raw request that also tries to supply completed_at = 999, stamps
completed_at with 5; marking it not completed clears the stamp; the full
update operation on a one-row table preserves the invariant. -/
theorem spec_C4_witness :
    (applyHabitUpdate ⟨1, 7, "h", none, none, false, 2⟩
        (parseHabitUpdate ⟨none, none, some true, some (some 999)⟩) 5).completed_at = some 5
    ∧ (applyHabitUpdate ⟨1, 7, "h", none, some 4, true, 2⟩
        (parseHabitUpdate ⟨none, none, some false, some (some 999)⟩) 5).completed_at = none
    ∧ habitInv (create_habit [] ⟨7, "CUSTOMER"⟩ ⟨"h", none⟩ 1 2).1
    ∧ habitInv ⟨1, 7, "h", none, some 5, true, 2⟩ := by
  obtain ⟨hcreate, htrue, hfalse, hupdate⟩ := spec_C4_habit_completed_at_iff
  refine ⟨(htrue ⟨1, 7, "h", none, none, false, 2⟩ ⟨none, none, some true, some (some 999)⟩ 5 rfl).1,
          (hfalse ⟨1, 7, "h", none, some 4, true, 2⟩ ⟨none, none, some false, some (some 999)⟩ 5 rfl).1,
          hcreate [] ⟨7, "CUSTOMER"⟩ ⟨"h", none⟩ 1 2,
          (hupdate [⟨1, 7, "h", none, none, false, 2⟩] ⟨7, "CUSTOMER"⟩ 1
            ⟨none, none, some true, some (some 999)⟩ 5
            ⟨1, 7, "h", none, some 5, true, 2⟩ [⟨1, 7, "h", none, some 5, true, 2⟩]
            (by decide) (by decide)).1⟩

/-- C2: a registration whose username or email is already taken answers
with the conflict body — named after the first matching row's duplicated
field — and leaves the table unchanged; and when the pre-insert check
passes but a concurrent registration has made the INSERT hit the
uniqueness constraint, the resulting duplicate-key failure is surfaced as
the same username/email conflict kind the pre-check itself produces, with
no row inserted by this request. -/
theorem spec_C2_registration_conflict :
    (∀ (db raceDb : List UserRec) (req : UserSchemaIn) newId tokenOk now,
       (∃ u ∈ db, u.username = req.username ∨ u.email = req.email) →
       (∃ k, (create_user db raceDb req newId tokenOk now).1 = .conflict k)
         ∧ (create_user db raceDb req newId tokenOk now).2 = db)
    ∧ (∀ (db raceDb : List UserRec) (req : UserSchemaIn) newId tokenOk now ex,
       (db.find? fun u => u.username == req.username || u.email == req.email) = some ex →
       (create_user db raceDb req newId tokenOk now).1 =
         (if ex.username = req.username then .conflict .username else .conflict .email))
    ∧ (∀ (db raceDb : List UserRec) (req : UserSchemaIn) newId tokenOk now,
       (∀ u ∈ db, u.username ≠ req.username ∧ u.email ≠ req.email) →
       (∃ u ∈ raceDb, u.username = req.username) →
       create_user db raceDb req newId tokenOk now = (.conflict .username, raceDb))
    ∧ (∀ (db raceDb : List UserRec) (req : UserSchemaIn) newId tokenOk now,
       (∀ u ∈ db, u.username ≠ req.username ∧ u.email ≠ req.email) →
       (∀ u ∈ raceDb, u.username ≠ req.username) →
       (∃ u ∈ raceDb, u.email = req.email) →
       create_user db raceDb req newId tokenOk now = (.conflict .email, raceDb)) := by
  have hnone : ∀ (db : List UserRec) (req : UserSchemaIn),
      (∀ u ∈ db, u.username ≠ req.username ∧ u.email ≠ req.email) →
      (db.find? fun u => u.username == req.username || u.email == req.email) = none := by
    intro db req hno
    rw [List.find?_eq_none]
    intro u hu
    simp only [Bool.or_eq_true, beq_iff_eq, not_or]
    exact ⟨(hno u hu).1, (hno u hu).2⟩
  refine ⟨?_, ?_, ?_, ?_⟩
  · intro db raceDb req newId tokenOk now hdup
    have hsome : (db.find? fun u => u.username == req.username || u.email == req.email).isSome := by
      rw [List.find?_isSome]
      obtain ⟨u, hu, hcase⟩ := hdup
      exact ⟨u, hu, by simpa [Bool.or_eq_true, beq_iff_eq] using hcase⟩
    obtain ⟨ex, hfind⟩ := Option.isSome_iff_exists.mp hsome
    unfold create_user
    rw [hfind]
    dsimp only
    by_cases hname : ex.username = req.username
    · rw [if_pos hname]
      exact ⟨⟨.username, rfl⟩, rfl⟩
    · rw [if_neg hname]
      exact ⟨⟨.email, rfl⟩, rfl⟩
  · intro db raceDb req newId tokenOk now ex hfind
    unfold create_user
    rw [hfind]
    dsimp only
    by_cases hname : ex.username = req.username
    · rw [if_pos hname, if_pos hname]
    · rw [if_neg hname, if_neg hname]
  · intro db raceDb req newId tokenOk now hno hdup
    unfold create_user
    rw [hnone db req hno]
    dsimp only
    have hany : (raceDb.any fun ex => ex.username == req.username) = true := by
      rw [List.any_eq_true]
      obtain ⟨u, hu, he⟩ := hdup
      exact ⟨u, hu, by simpa [beq_iff_eq] using he⟩
    rw [if_pos hany]
  · intro db raceDb req newId tokenOk now hno hnouser hdup
    unfold create_user
    rw [hnone db req hno]
    dsimp only
    have hanyu : (raceDb.any fun ex => ex.username == req.username) = false := by
      rw [List.any_eq_false]
      intro u hu
      simp only [beq_iff_eq]
      exact hnouser u hu
    have hanye : (raceDb.any fun ex => ex.email == req.email) = true := by
      rw [List.any_eq_true]
      obtain ⟨u, hu, he⟩ := hdup
      exact ⟨u, hu, by simpa [beq_iff_eq] using he⟩
    rw [if_neg (by simp [hanyu]), if_pos hanye]

/-- Witness for C2: registering a duplicate username conflicts and leaves
the table as it was, both when the pre-check catches it and when only the
race-time table holds the duplicate. -/
theorem spec_C2_witness :
    ((∃ k, (create_user [⟨1, "alice", "a@x", .hashed "pw", "CUSTOMER"⟩] []
        ⟨"alice", "b@x", "pw2", none⟩ 2 true 0).1 = .conflict k)
      ∧ (create_user [⟨1, "alice", "a@x", .hashed "pw", "CUSTOMER"⟩] []
        ⟨"alice", "b@x", "pw2", none⟩ 2 true 0).2 =
          [⟨1, "alice", "a@x", .hashed "pw", "CUSTOMER"⟩])
    ∧ create_user [] [⟨1, "alice", "a@x", .hashed "pw", "CUSTOMER"⟩]
        ⟨"alice", "b@x", "pw2", none⟩ 2 true 0 =
        (.conflict .username, [⟨1, "alice", "a@x", .hashed "pw", "CUSTOMER"⟩]) := by
  obtain ⟨h1, -, h3, -⟩ := spec_C2_registration_conflict
  exact ⟨h1 [⟨1, "alice", "a@x", .hashed "pw", "CUSTOMER"⟩] []
           ⟨"alice", "b@x", "pw2", none⟩ 2 true 0
           ⟨⟨1, "alice", "a@x", .hashed "pw", "CUSTOMER"⟩, by simp, Or.inl rfl⟩,
         h3 [] [⟨1, "alice", "a@x", .hashed "pw", "CUSTOMER"⟩]
           ⟨"alice", "b@x", "pw2", none⟩ 2 true 0
           (by simp)
           ⟨⟨1, "alice", "a@x", .hashed "pw", "CUSTOMER"⟩, by simp, rfl⟩⟩

/-- C10: a registration that passes the duplicate check (with no
concurrent insert) succeeds, appends exactly the new row, and carries a
token freshly generated for that new row — and when token generation
raises, the registration still succeeds with the token merely omitted. -/
theorem spec_C10_register_returns_token :
    ∀ (db : List UserRec) (req : UserSchemaIn) newId now,
      (∀ u ∈ db, u.username ≠ req.username ∧ u.email ≠ req.email) →
      ∃ nu, create_user db db req newId true now =
              (.success nu (some (generate_token nu now)), db ++ [nu])
        ∧ create_user db db req newId false now = (.success nu none, db ++ [nu]) := by
  intro db req newId now hno
  have hfind : (db.find? fun u => u.username == req.username || u.email == req.email) = none := by
    rw [List.find?_eq_none]
    intro u hu
    simp only [Bool.or_eq_true, beq_iff_eq, not_or]
    exact ⟨(hno u hu).1, (hno u hu).2⟩
  have hanyu : (db.any fun ex => ex.username == req.username) = false := by
    rw [List.any_eq_false]
    intro u hu
    simp only [beq_iff_eq]
    exact (hno u hu).1
  have hanye : (db.any fun ex => ex.email == req.email) = false := by
    rw [List.any_eq_false]
    intro u hu
    simp only [beq_iff_eq]
    exact (hno u hu).2
  refine ⟨⟨newId, req.username, req.email, .hashed req.password, normalizeRole req.role⟩, ?_, ?_⟩ <;>
    · unfold create_user
      rw [hfind]
      dsimp only
      rw [if_neg (by simp [hanyu]), if_neg (by simp [hanye])]
      rfl

/-- Witness for C10: registering into an empty table succeeds with the
token of the new user, and still succeeds tokenless when token generation
fails. -/
theorem spec_C10_witness :
    create_user [] [] ⟨"alice", "a@x", "pw", none⟩ 1 true 50 =
      (.success ⟨1, "alice", "a@x", .hashed "pw", "CUSTOMER"⟩
        (some (generate_token ⟨1, "alice", "a@x", .hashed "pw", "CUSTOMER"⟩ 50)),
       [⟨1, "alice", "a@x", .hashed "pw", "CUSTOMER"⟩])
    ∧ create_user [] [] ⟨"alice", "a@x", "pw", none⟩ 1 false 50 =
      (.success ⟨1, "alice", "a@x", .hashed "pw", "CUSTOMER"⟩ none,
       [⟨1, "alice", "a@x", .hashed "pw", "CUSTOMER"⟩]) := by
  obtain ⟨nu, h1, h2⟩ :=
    spec_C10_register_returns_token [] ⟨"alice", "a@x", "pw", none⟩ 1 50 (by simp)
  have hnu : nu = ⟨1, "alice", "a@x", .hashed "pw", "CUSTOMER"⟩ := by
    have := h1
    unfold create_user at this
    simp only [List.find?_nil, List.any_nil, Bool.false_eq_true, if_false,
      Prod.mk.injEq, RegResult.success.injEq, List.nil_append] at this
    exact (this.1.1).symm
  rw [hnu] at h1 h2
  exact ⟨h1, h2⟩

/-- Counterexample to C8: registering with the supplied role string
moderator stores the uppercased string MODERATOR on the new user, which is
neither of the two canonical values — the claim that every supplied role
string normalises into the set CUSTOMER/ADMIN is false. -/
theorem spec_C8_counterexample :
    (create_user [] [] ⟨"x", "y@z", "p", some "moderator"⟩ 1 false 0).1 =
      .success ⟨1, "x", "y@z", .hashed "p", "MODERATOR"⟩ none
    ∧ "MODERATOR" ≠ "CUSTOMER" ∧ "MODERATOR" ≠ "ADMIN" := by
  refine ⟨by decide, by decide, by decide⟩

/-- C8 as amended: the stored role is CUSTOMER when the role is omitted
(pydantic default), explicitly null, or the empty string; any other
supplied string is uppercased and stored as is — canonical or not. -/
theorem spec_C8_role_normalization :
    (∀ (db raceDb : List UserRec) (req : UserSchemaIn) newId tokenOk now u t,
       (create_user db raceDb req newId tokenOk now).1 = .success u t →
       u.role = normalizeRole req.role)
    ∧ normalizeRole none = "CUSTOMER"
    ∧ normalizeRole (some "") = "CUSTOMER"
    ∧ (∀ s, s ≠ "" → normalizeRole (some s) = strUpper s) := by
  refine ⟨?_, rfl, rfl, fun s hs => by simp [normalizeRole, hs]⟩
  intro db raceDb req newId tokenOk now u t hsucc
  unfold create_user at hsucc
  split at hsucc
  · split at hsucc <;> exact absurd hsucc (by simp)
  · split at hsucc
    · exact absurd hsucc (by simp)
    · split at hsucc
      · exact absurd hsucc (by simp)
      · simp only [RegResult.success.injEq] at hsucc
        rw [← hsucc.1]

/-- Witness for C8 as amended: a supplied role admin in lower case is
stored canonically as ADMIN; an omitted role stores CUSTOMER. -/
theorem spec_C8_witness :
    (⟨1, "x", "y@z", StoredHash.hashed "p", "ADMIN"⟩ : UserRec).role =
        normalizeRole (some "admin")
    ∧ normalizeRole none = "CUSTOMER"
    ∧ normalizeRole (some "admin") = strUpper "admin" := by
  obtain ⟨hstore, hdefault, -, hup⟩ := spec_C8_role_normalization
  exact ⟨hstore [] [] ⟨"x", "y@z", "p", some "admin"⟩ 1 false 0
           ⟨1, "x", "y@z", .hashed "p", "ADMIN"⟩ none (by decide),
         hdefault, hup "admin" (by decide)⟩

/-- C3: a token issued for any user carries an expiry exactly 86400
seconds (24 hours) after its issued-at claim, the stringified user id as
subject, and the user's role (with a falsy stored role encoded as
CUSTOMER); and verification at any time at or after the expiry claim
fails with the expired error, never yielding an identity. -/
theorem spec_C3_token_lifetime :
    (∀ (u : UserRec) now,
       (generate_token u now).exp = (generate_token u now).iat + 86400
       ∧ (generate_token u now).sub = toString u.id
       ∧ (u.role ≠ "" → (generate_token u now).role = u.role)
       ∧ (u.role = "" → (generate_token u now).role = "CUSTOMER"))
    ∧ (∀ (u : UserRec) issued now,
       (generate_token u issued).exp ≤ now →
       verify_token (generate_token u issued) now = .error .expired) := by
  refine ⟨fun u now => ⟨rfl, rfl, fun h => by simp [generate_token, h],
                        fun h => by simp [generate_token, h]⟩, ?_⟩
  intro u issued now h
  unfold verify_token
  rw [if_pos h]

/-- Witness for C3: a token issued at time 100 for a CUSTOMER expires at
86500, and verification exactly at the expiry instant is rejected as
expired. -/
theorem spec_C3_witness :
    (generate_token ⟨3, "alice", "a@x", .hashed "pw", "CUSTOMER"⟩ 100).exp =
        (generate_token ⟨3, "alice", "a@x", .hashed "pw", "CUSTOMER"⟩ 100).iat + 86400
    ∧ (generate_token ⟨3, "alice", "a@x", .hashed "pw", "CUSTOMER"⟩ 100).role = "CUSTOMER"
    ∧ verify_token (generate_token ⟨3, "alice", "a@x", .hashed "pw", "CUSTOMER"⟩ 100) 86500 =
        .error .expired := by
  obtain ⟨hissue, hexpire⟩ := spec_C3_token_lifetime
  exact ⟨(hissue ⟨3, "alice", "a@x", .hashed "pw", "CUSTOMER"⟩ 100).1,
         (hissue ⟨3, "alice", "a@x", .hashed "pw", "CUSTOMER"⟩ 100).2.2.1 (by decide),
         hexpire ⟨3, "alice", "a@x", .hashed "pw", "CUSTOMER"⟩ 100 86500 (by decide)⟩

/-- Counterexample to C7: on an account whose stored password_hash is
NULL, the passlib delegation raises instead of returning false, and login
surfaces that as the Internal (500) outcome — not the Unauthenticated
(401) outcome a wrong password produces on a healthy account. -/
theorem spec_C7_counterexample :
    login [⟨1, "alice", "a@x", .null, "CUSTOMER"⟩] "alice" "pw" 0 = .internalError
    ∧ login [⟨1, "alice", "a@x", .null, "CUSTOMER"⟩] "alice" "pw" 0 ≠ .unauthorized
    ∧ verify_password ⟨1, "alice", "a@x", .null, "CUSTOMER"⟩ "pw" =
        .error .typeError
    ∧ login [⟨2, "bob", "b@x", .hashed "right", "CUSTOMER"⟩] "bob" "wrong" 0 =
        .unauthorized := by
  refine ⟨rfl, by decide, rfl, rfl⟩

/-- C7 as amended: for every account whose stored hash is absent or
malformed, verify_password propagates the passlib exception (it does not
return false), and login converts it into the Internal (500) outcome for
every candidate password; a wrong password against a well-formed hash
yields Unauthenticated (401) — two distinguishable outcomes. -/
theorem spec_C7_unverifiable_hash_is_internal :
    (∀ (u : UserRec) pw,
       u.password_hash = .null ∨ (∃ s, u.password_hash = .malformed s) →
       ∃ e, verify_password u pw = .error e)
    ∧ (∀ (db : List UserRec) uname pw now u,
       (db.find? fun x => x.username == uname) = some u →
       u.password_hash = .null ∨ (∃ s, u.password_hash = .malformed s) →
       login db uname pw now = .internalError)
    ∧ (∀ (db : List UserRec) uname pw now u stored,
       (db.find? fun x => x.username == uname) = some u →
       u.password_hash = .hashed stored → pw ≠ stored →
       login db uname pw now = .unauthorized) := by
  refine ⟨?_, ?_, ?_⟩
  · intro u pw hbad
    rcases hbad with hnull | ⟨s, hmal⟩
    · exact ⟨.typeError, by simp [verify_password, pwd_context_verify, hnull]⟩
    · exact ⟨.unknownHash, by simp [verify_password, pwd_context_verify, hmal]⟩
  · intro db uname pw now u hfind hbad
    unfold login
    rw [hfind]
    dsimp only
    rcases hbad with hnull | ⟨s, hmal⟩
    · simp [verify_password, pwd_context_verify, hnull]
    · simp [verify_password, pwd_context_verify, hmal]
  · intro db uname pw now u stored hfind hhash hne
    unfold login
    rw [hfind]
    dsimp only
    have hbe : (pw == stored) = false := beq_eq_false_iff_ne.mpr hne
    simp [verify_password, pwd_context_verify, hhash, hbe]

/-- Witness for C7 as amended: a NULL hash makes login on that account a
500 whatever the password, while a wrong password on a healthy account is
a 401. -/
theorem spec_C7_witness :
    login [⟨1, "alice", "a@x", .null, "CUSTOMER"⟩] "alice" "whatever" 9 = .internalError
    ∧ login [⟨2, "bob", "b@x", .hashed "right", "CUSTOMER"⟩] "bob" "wrong" 9 =
        .unauthorized := by
  obtain ⟨-, hbad, hwrong⟩ := spec_C7_unverifiable_hash_is_internal
  exact ⟨hbad [⟨1, "alice", "a@x", .null, "CUSTOMER"⟩] "alice" "whatever" 9
           ⟨1, "alice", "a@x", .null, "CUSTOMER"⟩ (by decide) (Or.inl rfl),
         hwrong [⟨2, "bob", "b@x", .hashed "right", "CUSTOMER"⟩] "bob" "wrong" 9
           ⟨2, "bob", "b@x", .hashed "right", "CUSTOMER"⟩ "right" (by decide) rfl
           (by decide)⟩

/-- Counterexample to C9: the task list endpoint takes no limit or offset
at all, so a user with 101 tasks gets all 101 rows back — there is no
pagination with a limit bounded to 1-100 on this resource (the same holds
for notes and habits; the habit list moreover has no search filter). -/
theorem spec_C9_counterexample :
    (get_tasks db101 ⟨7, "CUSTOMER"⟩ none none).length = 101 := by
  unfold get_tasks
  rw [List.length_insertionSort]
  rw [List.filter_eq_self.mpr ?_]
  · simp [db101]
  · intro a ha
    simp only [db101, List.mem_map, List.mem_range] at ha
    obtain ⟨i, -, rfl⟩ := ha
    rfl

/-- C9 as amended: each owner-scoped list returns rows of the current
user only, newest-first by created_at, and honours exactly the filters
its endpoint declares — tasks: completion and case-insensitive search
over title/description, no pagination; notes: search over title/content
only; habits: completion only; daily goals: date, completion and search
plus limit/offset pagination, with at most limit rows returned. -/
theorem spec_C9_list_semantics :
    (∀ db cu completed search,
       List.Sorted taskNewer (get_tasks db cu completed search)
       ∧ (∀ t, t ∈ get_tasks db cu completed search ↔
            t ∈ db ∧ t.user_id = cu.id
            ∧ (∀ b, completed = some b → t.is_completed = b)
            ∧ (∀ s, search = some s →
                (ilikeContains t.title s || ilikeContains t.description s) = true)))
    ∧ (∀ db cu search,
       List.Sorted noteNewer (get_user_notes db cu search)
       ∧ (∀ n, n ∈ get_user_notes db cu search ↔
            n ∈ db ∧ n.user_id = cu.id
            ∧ (∀ s, search = some s →
                (ilikeContains n.title s || ilikeOpt n.content s) = true)))
    ∧ (∀ db cu completed,
       List.Sorted habitNewer (get_my_habits db cu completed)
       ∧ (∀ h, h ∈ get_my_habits db cu completed ↔
            h ∈ db ∧ h.user_id = cu.id
            ∧ (∀ b, completed = some b → h.is_completed = b)))
    ∧ (∀ db cu gdate completed search limit offset,
       List.Sorted goalNewer (get_daily_goals db cu gdate completed search limit offset)
       ∧ (get_daily_goals db cu gdate completed search limit offset).length ≤ limit
       ∧ (∀ g, g ∈ get_daily_goals db cu gdate completed search limit offset →
            g ∈ db ∧ g.user_id = cu.id
            ∧ (∀ d, gdate = some d → g.goal_date = d)
            ∧ (∀ b, completed = some b → g.is_completed = b)
            ∧ (∀ s, search = some s →
                (ilikeContains g.title s || ilikeOpt g.description s) = true))) := by
  refine ⟨?_, ?_, ?_, ?_⟩
  · intro db cu completed search
    refine ⟨List.sorted_insertionSort taskNewer _, fun t => ?_⟩
    unfold get_tasks
    rw [List.mem_insertionSort, List.mem_filter]
    constructor
    · rintro ⟨hmem, hp⟩
      simp only [Bool.and_eq_true, beq_iff_eq] at hp
      obtain ⟨⟨huid, hcomp⟩, hsearch⟩ := hp
      refine ⟨hmem, huid, ?_, ?_⟩
      · rintro b rfl
        simpa using hcomp
      · rintro s rfl
        simpa using hsearch
    · rintro ⟨hmem, huid, hcomp, hsearch⟩
      refine ⟨hmem, ?_⟩
      simp only [Bool.and_eq_true, beq_iff_eq]
      refine ⟨⟨huid, ?_⟩, ?_⟩
      · cases completed with
        | none => rfl
        | some b => simpa using hcomp b rfl
      · cases search with
        | none => rfl
        | some s => simpa using hsearch s rfl
  · intro db cu search
    refine ⟨List.sorted_insertionSort noteNewer _, fun n => ?_⟩
    unfold get_user_notes
    rw [List.mem_insertionSort, List.mem_filter]
    constructor
    · rintro ⟨hmem, hp⟩
      simp only [Bool.and_eq_true, beq_iff_eq] at hp
      obtain ⟨huid, hsearch⟩ := hp
      refine ⟨hmem, huid, ?_⟩
      rintro s rfl
      simpa using hsearch
    · rintro ⟨hmem, huid, hsearch⟩
      refine ⟨hmem, ?_⟩
      simp only [Bool.and_eq_true, beq_iff_eq]
      refine ⟨huid, ?_⟩
      cases search with
      | none => rfl
      | some s => simpa using hsearch s rfl
  · intro db cu completed
    refine ⟨List.sorted_insertionSort habitNewer _, fun h => ?_⟩
    unfold get_my_habits
    rw [List.mem_insertionSort, List.mem_filter]
    constructor
    · rintro ⟨hmem, hp⟩
      simp only [Bool.and_eq_true, beq_iff_eq] at hp
      obtain ⟨huid, hcomp⟩ := hp
      refine ⟨hmem, huid, ?_⟩
      rintro b rfl
      simpa using hcomp
    · rintro ⟨hmem, huid, hcomp⟩
      refine ⟨hmem, ?_⟩
      simp only [Bool.and_eq_true, beq_iff_eq]
      refine ⟨huid, ?_⟩
      cases completed with
      | none => rfl
      | some b => simpa using hcomp b rfl
  · intro db cu gdate completed search limit offset
    refine ⟨?_, ?_, ?_⟩
    · unfold get_daily_goals
      exact List.Pairwise.sublist
        ((List.take_sublist _ _).trans (List.drop_sublist _ _))
        (List.sorted_insertionSort goalNewer _)
    · unfold get_daily_goals
      rw [List.length_take]
      exact min_le_left _ _
    · intro g hg
      unfold get_daily_goals at hg
      have hg2 := (List.take_subset _ _) hg
      have hg3 := (List.drop_subset _ _) hg2
      rw [List.mem_insertionSort, List.mem_filter] at hg3
      obtain ⟨hmem, hp⟩ := hg3
      simp only [Bool.and_eq_true, beq_iff_eq] at hp
      obtain ⟨⟨⟨huid, hdate⟩, hcomp⟩, hsearch⟩ := hp
      refine ⟨hmem, huid, ?_, ?_, ?_⟩
      · rintro d rfl
        simpa using hdate
      · rintro b rfl
        simpa using hcomp
      · rintro s rfl
        simpa using hsearch

/-- Witness for C9 as amended: a two-task table lists sorted; one daily
goal under the default limit 20 stays within the limit; and an owned task
is indeed listed when no filter is supplied. -/
theorem spec_C9_witness :
    List.Sorted taskNewer (get_tasks [mkTask 0, mkTask 1] ⟨7, "CUSTOMER"⟩ none none)
    ∧ (get_daily_goals [⟨1, "g", some "d", 10, false, 7, 3⟩] ⟨7, "CUSTOMER"⟩
        none none none 20 0).length ≤ 20
    ∧ mkTask 0 ∈ get_tasks [mkTask 0, mkTask 1] ⟨7, "CUSTOMER"⟩ none none := by
  obtain ⟨htask, -, -, hgoal⟩ := spec_C9_list_semantics
  refine ⟨(htask [mkTask 0, mkTask 1] ⟨7, "CUSTOMER"⟩ none none).1,
          (hgoal [⟨1, "g", some "d", 10, false, 7, 3⟩] ⟨7, "CUSTOMER"⟩
            none none none 20 0).2.1, ?_⟩
  exact ((htask [mkTask 0, mkTask 1] ⟨7, "CUSTOMER"⟩ none none).2 (mkTask 0)).mpr
    ⟨by simp, rfl, fun _ hb => Option.noConfusion hb, fun _ hs => Option.noConfusion hs⟩

end PPD
